import Mathlib

/-!
Verification of the concept02 workload scheduler (Go) against its
natural-language specification.

The development shallowly embeds the core of the repository:

* `pkg/controller` (file `part_000`): the `TimeRange` type and its
  `InRangeNow` test, the schedule-annotation parser
  `parseScheduleAnnotation` (here `parseScheduleAnn`), and the
  reconciliation loop body `loopIteration`;
* `pkg/controller/utils.go`: `ToggleDeployment` (conflict-retrying state
  toggle) and `AttemptToggleDeployment` (single-shot variant);
* `internal/service/service.go`: the `/scaleDown` and `/scaleUp` HTTP
  handler bodies.

Conventions of the embedding:

* Go `map[string]string` is an association list (`AnnMap`) wrapped in
  `Option`, where `none` models a Go `nil` map: reads of a nil map
  succeed (and find nothing), writes to a nil map panic.
* Wall-clock times at minute resolution are numbers of minutes past
  midnight (`Nat`); Go compares `time.Time` values that were all parsed
  with layout `"15:04"` (same date, zero seconds), which is exactly
  comparison of minutes past midnight.
* Go panics are explicit constructors of the result types; fallible Go
  functions return sum types mirroring the `(value, error)` returns.
* The cluster-side state relevant to one toggle call is the workload at
  the addressed key: `Cluster := Option Deployment`, `none` meaning the
  object does not exist (fetch returns NotFound).
* The outcome of each `Update` API call is injected as a list of
  per-attempt `UpdateResult`s; an exhausted list means the remaining
  calls succeed.
-/

namespace Concept02

/-! ## Constants (from `pkg/controller`, `part_000`)

Go names: `REPLICAS_MEMORY_ANNOTATION`, `SCHEDULE_ANNOTATION`,
`ENABLED_ANNOTATION`. -/

def REPLICAS_MEMORY_ANN : String := "scheduler.replicas-memory"

def SCHEDULE_ANN : String := "scheduler.off-schedule"

def ENABLED_ANN : String := "scheduler.enabled"

/-- Go `type DeploymentState bool`. -/
abbrev DeploymentState := Bool

/-- Go `ENABLED DeploymentState = true` (target: running). -/
def ENABLED : DeploymentState := true

/-- Go `DISABLED DeploymentState = false` (target: suspended). -/
def DISABLED : DeploymentState := false

/-! ## Annotation maps

Go `map[string]string`, modelled as an association list. `annFind`
models a map read, `annInsert` a map write (overwrites an existing
binding), `annErase` models `delete`. -/

abbrev AnnMap := List (String × String)

def annFind : AnnMap → String → Option String
  | [], _ => none
  | (k2, v) :: rest, k => if k2 = k then some v else annFind rest k

def annInsert : AnnMap → String → String → AnnMap
  | [], k, v => [(k, v)]
  | (k2, v2) :: rest, k, v =>
    if k2 = k then (k, v) :: rest else (k2, v2) :: annInsert rest k v

def annErase : AnnMap → String → AnnMap
  | [], _ => []
  | (k2, v2) :: rest, k =>
    if k2 = k then annErase rest k else (k2, v2) :: annErase rest k

/-- Reading from a possibly-nil Go map: a nil map reads as empty. -/
def annGet (anns : Option AnnMap) (k : String) : Option String :=
  match anns with
  | none => none
  | some m => annFind m k

/-! ## Deployments

The fields of a k8s Deployment the program touches: `*Spec.Replicas`
(an `int32`, modelled as `Int`) and `ObjectMeta.Annotations`
(`none` models a nil map, as returned by the API for a deployment that
carries no annotations at all). -/

structure Deployment where
  replicas : Int
  anns : Option AnnMap
deriving Repr, DecidableEq

/-- The workload at the addressed `namespace/name` key on the cluster;
`none` means the object does not exist there. -/
abbrev Cluster := Option Deployment

/-! ## Go standard-library fragments -/

/-- Go `strconv.Itoa` on the (exact) `int` value of the replica count. -/
def itoa (i : Int) : String := toString i

/-- Go `strconv.Atoi`: optional sign, then decimal digits; errors on an
empty digit string, a non-digit, or a value outside the `int64` range. -/
def atoi (s : String) : Option Int :=
  let cs := s.toList
  let signed : Bool × List Char :=
    match cs with
    | '-' :: rest => (true, rest)
    | '+' :: rest => (false, rest)
    | _ => (false, cs)
  let neg := signed.1
  let ds := signed.2
  if ds = [] then none
  else if ds.all (fun c => c.isDigit) then
    let n : Nat := ds.foldl (fun acc c => acc * 10 + (c.toNat - 48)) 0
    let v : Int := if neg then -(n : Int) else (n : Int)
    if -9223372036854775808 ≤ v ∧ v ≤ 9223372036854775807 then some v else none
  else none

/-- Go `int32(i)` conversion of an `int` (two's-complement wrap). -/
def toInt32 (i : Int) : Int := (i + 2 ^ 31) % 2 ^ 32 - 2 ^ 31

/-- One or two decimal digits (Go `time` package `getnum` with
`fixed = false`, used for the hour of layout `"15"`). Returns the value
and the unconsumed characters. -/
def getnum : List Char → Option (Nat × List Char)
  | [] => none
  | c1 :: rest =>
    if c1.isDigit then
      match rest with
      | c2 :: rest2 =>
        if c2.isDigit then some ((c1.toNat - 48) * 10 + (c2.toNat - 48), rest2)
        else some (c1.toNat - 48, rest)
      | [] => some (c1.toNat - 48, [])
    else none

/-- Exactly two decimal digits (Go `getnum` with `fixed = true`, used
for the zero-padded minute of layout `"04"`). -/
def getnumFixed : List Char → Option (Nat × List Char)
  | c1 :: c2 :: rest =>
    if c1.isDigit ∧ c2.isDigit then
      some ((c1.toNat - 48) * 10 + (c2.toNat - 48), rest)
    else none
  | _ => none

/-- Go `time.Parse("15:04", s)`, reduced to the pair (hour, minute):
1–2 digit hour, literal `:`, exactly-2-digit minute, nothing left over,
hour in 0–23 and minute in 0–59. -/
def timeParseHM (s : String) : Option (Nat × Nat) :=
  match getnum s.toList with
  | none => none
  | some (h, rest) =>
    match rest with
    | ':' :: rest2 =>
      match getnumFixed rest2 with
      | none => none
      | some (m, rest3) =>
        if rest3 = [] ∧ h ≤ 23 ∧ m ≤ 59 then some (h, m) else none
    | _ => none

/-- Go `strings.Trim(s, " ")`: strip leading and trailing spaces (only
the space character, matching the Go cutset `" "`). -/
def trimSpaces (s : String) : String :=
  String.mk (((s.toList.dropWhile (fun c => c = ' ')).reverse.dropWhile
    (fun c => c = ' ')).reverse)

/-- Split a character list at every occurrence of `sep`. Mirrors Go
`strings.Split` for a single-character separator: the result always has
at least one element, and splitting the empty string yields `[[]]`. -/
def splitChars (sep : Char) : List Char → List (List Char)
  | [] => [[]]
  | c :: rest =>
    let r := splitChars sep rest
    if c = sep then [] :: r
    else
      match r with
      | [] => [[c]]
      | hd :: tl => (c :: hd) :: tl

/-- Go `strings.Split(s, "-")`. -/
def splitOnDash (s : String) : List String :=
  (splitChars '-' s.toList).map String.mk

/-! ## TimeRange (from `part_000`)

Go stores two `time.Time` values `Start` and `End`, both produced by
`time.Parse("15:04", _)`; here each is the number of minutes past
midnight. -/

structure TimeRange where
  Start : Nat
  End : Nat
deriving Repr, DecidableEq

/-- Minutes past midnight of the clock time `h:m`. -/
def hm (h m : Nat) : Nat := h * 60 + m

/-- Go `func (t TimeRange) InRangeNow() bool`, with the current clock
time (already truncated to the minute by `Format("15:04")`) passed
explicitly. Go `a.Before(b)` is `a < b` and `a.After(b)` is `b < a`. -/
def TimeRange.InRangeNow (t : TimeRange) (now : Nat) : Bool :=
  if t.End < t.Start then decide (t.Start < now) || decide (now < t.End)
  else decide (t.Start < now) && decide (now < t.End)

/-! ## Schedule parser (from `part_000`)

Go `parseScheduleAnnotation(annotations map[string]string)`. The Go code
runs `strings.Split(scheduleText, "-")` and then reads `tokens[0]` and
`tokens[1]` without checking the length of `tokens`, parsing `tokens[0]`
first and returning its `time.Parse` error before `tokens[1]` is ever
indexed. So a dash-free value whose text fails `time.Parse` returns an
error, while a dash-free value that does parse as `HH:MM` (`Split`
returned a one-element slice) reaches `tokens[1]` and panics with an
index-out-of-range runtime error, which the embedding records as
`ParseResult.panicIdx`. Tokens past the second are ignored. -/

inductive ParseResult where
  /-- Both tokens parsed; the resulting `TimeRange`. -/
  | ok (tr : TimeRange)
  /-- The `scheduler.off-schedule` annotation is absent:
  `could not find ... annotation`. -/
  | errMissing
  /-- `time.Parse` failed on this (trimmed) token; the Go error value
  carries the offending text. -/
  | errTime (tok : String)
  /-- Index out of range on `tokens[1]`: a Go runtime panic. -/
  | panicIdx
deriving Repr, DecidableEq

def parseScheduleAnn (anns : Option AnnMap) : ParseResult :=
  match annGet anns SCHEDULE_ANN with
  | none => .errMissing
  | some scheduleText =>
    match splitOnDash scheduleText with
    -- `strings.Split` never returns an empty slice; were it to, `tokens[0]`
    -- itself would already be out of range.
    | [] => .panicIdx
    | t0 :: rest =>
      -- Go parses `tokens[0]` first and returns its error before ever
      -- indexing `tokens[1]`.
      match timeParseHM (trimSpaces t0) with
      | none => .errTime (trimSpaces t0)
      | some s =>
        match rest with
        -- only now is `tokens[1]` indexed: out of range for a one-token split
        | [] => .panicIdx
        | t1 :: _ =>
          match timeParseHM (trimSpaces t1) with
          | none => .errTime (trimSpaces t1)
          | some e => .ok ⟨hm s.1 s.2, hm e.1 e.2⟩

/-! ## State toggle protocol (from `pkg/controller/utils.go`)

`ToggleDeployment` wraps a closure in
`retry.RetryOnConflict(retry.DefaultRetry, ...)`; `retry.DefaultRetry`
allows 5 attempts and retries only when the closure's error is a
conflict. The closure fetches the deployment, memorizes a non-zero
replica count into the `scheduler.replicas-memory` annotation, branches
on the target state, and calls `Update`.

`mutateDeployment` is the read-modify part shared by both variants
(everything between the fetch and the `Update` call). -/

inductive MutateStep where
  /-- Go panic: assignment to an entry of a nil `Annotations` map while
  memorizing a non-zero replica count. -/
  | panicNilMap
  /-- The closure returned `nil` before reaching `Update`: the
  deployment already is in the target state. No write happens. -/
  | noWrite
  /-- `strconv.Atoi` failed on this `scheduler.replicas-memory` value;
  the closure returns that error. -/
  | atoiErr (v : String)
  /-- The `Update` call is reached, with this mutated object. -/
  | write (d : Deployment)
deriving Repr, DecidableEq

def mutateDeployment (d : Deployment) (targetState : DeploymentState) : MutateStep :=
  -- Memorize current replicas number
  let memorized : Option Deployment :=
    if d.replicas ≠ 0 then
      match d.anns with
      | none => none
      | some m =>
        some { d with anns := some (annInsert m REPLICAS_MEMORY_ANN (itoa d.replicas)) }
    else some d
  match memorized with
  | none => .panicNilMap
  | some d1 =>
    -- Set the new replicas number
    if targetState = DISABLED then
      if d1.replicas = 0 then .noWrite
      else .write { d1 with replicas := 0 }
    else
      if d1.replicas ≠ 0 then .noWrite
      else
        match annGet d1.anns REPLICAS_MEMORY_ANN with
        | some v =>
          match atoi v with
          | none => .atoiErr v
          | some i =>
            .write { d1 with
              replicas := toInt32 i,
              anns := d1.anns.map (fun m => annErase m REPLICAS_MEMORY_ANN) }
        | none => .write d1

/-- Outcome of one `Update` API call, injected by the environment. -/
inductive UpdateResult where
  | ok
  | conflict
  | fail
deriving Repr, DecidableEq

/-- Go error values surfaced by the toggle functions. -/
inductive GoError where
  /-- `Failed to get latest version of Deployment: ...` (any get error,
  a NotFound included). -/
  | getFailed
  /-- `strconv.Atoi` error on this `scheduler.replicas-memory` value. -/
  | atoiFailed (v : String)
  /-- A conflict error from `Update` (raw from the single-shot variant;
  from the retrying variant only after the retry budget is spent, since
  `RetryOnConflict` then returns the last conflict error). -/
  | conflict
  /-- Any other `Update` error. -/
  | otherUpdate
deriving Repr, DecidableEq

/-- Result of a toggle call. `success wrote` records whether an
`Update` API call was issued (`wrote = false` means the function
returned before writing anything). -/
inductive ToggleResult where
  | success (wrote : Bool)
  | failure (e : GoError)
  | panicked
deriving Repr, DecidableEq

/-- Outcome of one pass of the `ToggleDeployment` closure. -/
inductive AttemptOutcome where
  | getErr
  | panicNilMap
  | atoiErr (v : String)
  | okNoWrite
  | okWrote (d : Deployment)
  | conflictErr
  | updateFail
deriving Repr, DecidableEq

/-- One pass of the `ToggleDeployment` closure: fetch the deployment at
the key (`cluster`), run the shared read-modify step, and make the
`Update` call whose outcome is `upd`. Returns the closure outcome and
the cluster state afterwards (changed only by a successful update). -/
def toggleAttempt (cluster : Cluster) (targetState : DeploymentState)
    (upd : UpdateResult) : AttemptOutcome × Cluster :=
  match cluster with
  | none => (.getErr, cluster)
  | some d =>
    match mutateDeployment d targetState with
    | .panicNilMap => (.panicNilMap, cluster)
    | .noWrite => (.okNoWrite, cluster)
    | .atoiErr v => (.atoiErr v, cluster)
    | .write d2 =>
      match upd with
      | .ok => (.okWrote d2, some d2)
      | .conflict => (.conflictErr, cluster)
      | .fail => (.updateFail, cluster)

/-- The `retry.RetryOnConflict` loop: run the closure, retry (with the
next injected update outcome) only on a conflict, up to `fuel`
attempts; an exhausted budget surfaces the last conflict error. Every
non-conflict closure error is returned at once. -/
def retryToggle : Nat → Cluster → DeploymentState → List UpdateResult →
    ToggleResult × Cluster
  | 0, cluster, _, _ => (.failure .conflict, cluster)
  | fuel + 1, cluster, target, upds =>
    match toggleAttempt cluster target (upds.headD .ok) with
    | (.getErr, c) => (.failure .getFailed, c)
    | (.panicNilMap, c) => (.panicked, c)
    | (.atoiErr v, c) => (.failure (.atoiFailed v), c)
    | (.okNoWrite, c) => (.success false, c)
    | (.okWrote _, c) => (.success true, c)
    | (.conflictErr, c) => retryToggle fuel c target upds.tail
    | (.updateFail, c) => (.failure .otherUpdate, c)

/-- Go `ToggleDeployment(clientset, namespace, deployment, targetState)`:
the conflict-retrying variant, `retry.DefaultRetry` allowing 5 attempts.
`upds` injects the per-attempt `Update` outcomes (`[]`: all succeed). -/
def ToggleDeployment (cluster : Cluster) (targetState : DeploymentState)
    (upds : List UpdateResult) : ToggleResult × Cluster :=
  retryToggle 5 cluster targetState upds

/-- Go `AttemptToggleDeployment(clientset, deployment, targetState)`:
single pass over a caller-held deployment object `d` (no fetch), one
`Update` call with outcome `upd`, no retry; the first error is returned
raw. The returned cluster state assumes the cluster currently holds
`d` at the addressed key. -/
def AttemptToggleDeployment (d : Deployment) (targetState : DeploymentState)
    (upd : UpdateResult) : ToggleResult × Cluster :=
  match mutateDeployment d targetState with
  | .panicNilMap => (.panicked, some d)
  | .noWrite => (.success false, some d)
  | .atoiErr v => (.failure (.atoiFailed v), some d)
  | .write d2 =>
    match upd with
    | .ok => (.success true, some d2)
    | .conflict => (.failure .conflict, some d)
    | .fail => (.failure .otherUpdate, some d)

/-! ## Reconciliation loop body (from `part_000`)

Go `func (c *Controller) loopIteration()`: iterate over the informer
index's keys, look each object up, skip on lookup error / missing /
not-enabled, parse the schedule annotation, evaluate `InRangeNow`, and
invoke `ToggleDeployment`; returned errors are logged and the loop
continues with the next key, but a Go panic (from the parser's
`tokens[1]` or from a nil-map write inside the toggle) unwinds the whole
iteration, so the remaining keys are not processed.

Each indexer entry carries the informer's view of the object plus, when
a toggle may run, that workload's cluster-side state and injected update
outcomes (the toggle re-fetches from the API, not from the informer). -/

inductive IndexerEntry where
  /-- `GetByKey` returned an error for this key. -/
  | errored (key : String)
  /-- `GetByKey` returned `exists = false`. -/
  | missing (key : String)
  /-- The informer holds deployment `d` at this key; the cluster API
  currently holds `cl` there and answers updates with `upds`. -/
  | found (key : String) (d : Deployment) (cl : Cluster) (upds : List UpdateResult)

inductive EntryResult where
  /-- Lookup error: logged, next key. -/
  | skippedErr
  /-- Raced deletion: next key. -/
  | skippedMissing
  /-- `scheduler.enabled` absent or not `"true"` (case-insensitive). -/
  | skippedNotEnabled
  /-- The schedule parser returned an error: logged, next key. -/
  | skippedParse
  /-- `ToggleDeployment` was invoked with result `r`, leaving that
  workload's cluster state at `c`. -/
  | toggleDone (r : ToggleResult) (c : Cluster)
deriving Repr, DecidableEq

inductive LoopResult where
  /-- The tick visited every key; per-key results in order. -/
  | completed (rs : List EntryResult)
  /-- A panic aborted the tick after the listed results; the remaining
  keys were never evaluated. -/
  | panicked (rs : List EntryResult)
deriving Repr, DecidableEq

def LoopResult.cons (r : EntryResult) : LoopResult → LoopResult
  | .completed rs => .completed (r :: rs)
  | .panicked rs => .panicked (r :: rs)

/-- ASCII `strings.ToLower` (the annotation values compared here are
ASCII; Go lowercases Unicode, which agrees on them). -/
def toLowerStr (s : String) : String :=
  String.mk (s.toList.map (fun c => c.toLower))

/-- Process one indexer entry of the tick; `none` means a panic was
raised while processing it. -/
def processEntry (now : Nat) : IndexerEntry → Option EntryResult
  | .errored _ => some .skippedErr
  | .missing _ => some .skippedMissing
  | .found _ d cl upds =>
    match annGet d.anns ENABLED_ANN with
    | none => some .skippedNotEnabled
    | some v =>
      if toLowerStr v ≠ "true" then some .skippedNotEnabled
      else
        match parseScheduleAnn d.anns with
        | .errMissing => some .skippedParse
        | .errTime _ => some .skippedParse
        | .panicIdx => none
        | .ok tr =>
          let target := if tr.InRangeNow now then DISABLED else ENABLED
          match ToggleDeployment cl target upds with
          | (.panicked, _) => none
          | (r, c) => some (.toggleDone r c)

/-- Go `loopIteration`, with the current clock time passed explicitly. -/
def loopIteration (now : Nat) : List IndexerEntry → LoopResult
  | [] => .completed []
  | e :: rest =>
    match processEntry now e with
    | none => .panicked []
    | some r => LoopResult.cons r (loopIteration now rest)

/-! ## Manual control surface (from `internal/service/service.go`)

The `/scaleDown` and `/scaleUp` handlers: decode a
`JsonResourceSpecifier` body, load the client, and call
`controller.ToggleDeployment` — the conflict-retrying variant — with
`DISABLED` resp. `ENABLED`; a toggle error becomes a 500 response with
the error text, success becomes `Request received`. Only the POST path
with a successfully loaded client is modelled; a `none` body stands for
a missing/undecodable request body (400). -/

structure JsonResourceSpecifier where
  Namespace : String
  Name : String
deriving Repr, DecidableEq

inductive HttpResponse where
  /-- 400: missing or undecodable request body. -/
  | badRequest
  /-- 500: the toggle call returned an error. -/
  | internalErr
  /-- Success: `Request received`. -/
  | okReceived
  /-- The handler goroutine panicked. -/
  | panicCrash
deriving Repr, DecidableEq

/-- Shared handler body; `body` is the decoded request body, `cluster`
the workload addressed by it. -/
def toggleHandler (target : DeploymentState) (body : Option JsonResourceSpecifier)
    (cluster : Cluster) (upds : List UpdateResult) : HttpResponse × Cluster :=
  match body with
  | none => (.badRequest, cluster)
  | some _ =>
    match ToggleDeployment cluster target upds with
    | (.success _, c) => (.okReceived, c)
    | (.failure _, c) => (.internalErr, c)
    | (.panicked, c) => (.panicCrash, c)

/-- The `/scaleDown` handler body: toggles towards `DISABLED`. -/
def scaleDownHandler (body : Option JsonResourceSpecifier) (cluster : Cluster)
    (upds : List UpdateResult) : HttpResponse × Cluster :=
  toggleHandler DISABLED body cluster upds

/-- The `/scaleUp` handler body: toggles towards `ENABLED`. -/
def scaleUpHandler (body : Option JsonResourceSpecifier) (cluster : Cluster)
    (upds : List UpdateResult) : HttpResponse × Cluster :=
  toggleHandler ENABLED body cluster upds

/-! ## Map lemmas -/

theorem annFind_insert (m : AnnMap) (k v : String) :
    annFind (annInsert m k v) k = some v := by
  induction m with
  | nil => simp [annInsert, annFind]
  | cons p rest ih =>
    obtain ⟨k2, v2⟩ := p
    by_cases h : k2 = k <;> simp [annInsert, annFind, h, ih]

theorem annFind_erase (m : AnnMap) (k : String) :
    annFind (annErase m k) k = none := by
  induction m with
  | nil => simp [annErase, annFind]
  | cons p rest ih =>
    obtain ⟨k2, v2⟩ := p
    by_cases h : k2 = k <;> simp [annErase, annFind, h, ih]

/-! ## Retry-loop lemmas -/

/-- A successful run of the retry loop over a present workload is
decided by the (deterministic) read-modify step: either the workload
already was in the target state (`wrote = false`, cluster untouched) or
some attempt's update succeeded on the mutated object (`wrote = true`).
Failed conflict attempts leave the cluster unchanged, so every attempt
mutates the same fetched object. -/
theorem retryToggle_success (n : Nat) (d : Deployment) (target : DeploymentState)
    (upds : List UpdateResult) (w : Bool) (c : Cluster)
    (h : retryToggle n (some d) target upds = (.success w, c)) :
    (mutateDeployment d target = .noWrite ∧ w = false ∧ c = some d) ∨
    (∃ d2, mutateDeployment d target = .write d2 ∧ w = true ∧ c = some d2) := by
  induction n generalizing upds with
  | zero => simp [retryToggle] at h
  | succ n ih =>
    rcases hmu : mutateDeployment d target with _ | _ | v | d2
    · simp [retryToggle, toggleAttempt, hmu] at h
    · simp [retryToggle, toggleAttempt, hmu] at h
      simp_all
    · simp [retryToggle, toggleAttempt, hmu] at h
    · cases upds with
      | nil =>
        simp [retryToggle, toggleAttempt, hmu] at h
        simp_all
      | cons u rest =>
        cases u with
        | ok =>
          simp [retryToggle, toggleAttempt, hmu] at h
          simp_all
        | conflict =>
          simp [retryToggle, toggleAttempt, hmu] at h
          rw [← hmu]
          exact ih rest h
        | fail => simp [retryToggle, toggleAttempt, hmu] at h

/-! ## Claim theorems -/

/-- C1: the schedule parser does return `errMissing` for an absent
annotation, and a malformed value whose first token fails `time.Parse`
does return an error (`"0900"`, `"junk"`: `tokens[0]` is parsed before
`tokens[1]` is indexed). But the claim still fails on two counts: a
dash-free value whose text parses as `HH:MM` (e.g. `"09:00"`, a
one-token split) reaches `tokens[1]` out of range and panics, and a
value with three or more tokens whose first two parse (e.g.
`"01:00-02:00-03:00"`) is accepted without any error instead of an
invalid-format error. -/
theorem c1_parse_malformed :
    parseScheduleAnn none = .errMissing ∧
    parseScheduleAnn (some [(ENABLED_ANN, "true")]) = .errMissing ∧
    parseScheduleAnn (some [(SCHEDULE_ANN, "0900")]) = .errTime "0900" ∧
    parseScheduleAnn (some [(SCHEDULE_ANN, "junk")]) = .errTime "junk" ∧
    parseScheduleAnn (some [(SCHEDULE_ANN, "09:00")]) = .panicIdx ∧
    parseScheduleAnn (some [(SCHEDULE_ANN, "01:00-02:00-03:00")]) =
      .ok ⟨hm 1 0, hm 2 0⟩ ∧
    parseScheduleAnn (some [(SCHEDULE_ANN, "99:00-17:00")]) = .errTime "99:00" := by
  decide

/-- C2 (counterexample): toggling a key whose workload no longer exists
is not a success-no-op; the closure turns the failed fetch into an
error, which `ToggleDeployment` wraps and returns, for both target
states. -/
theorem c2_missing_counterexample :
    (ToggleDeployment none DISABLED []).1 = .failure .getFailed ∧
    (ToggleDeployment none ENABLED []).1 = .failure .getFailed := by decide

/-- C2 (amended): for every target state and update environment,
toggling a missing workload returns the wrapped fetch-failure error
(`Failed to get latest version of Deployment`) and changes nothing;
the reconciliation loop then logs it like any toggle error. -/
theorem c2_missing_amended (target : DeploymentState) (upds : List UpdateResult) :
    ToggleDeployment none target upds = (.failure .getFailed, none) := rfl

/-- C3: a failure on one workload is not always contained. If workload
A's schedule annotation is a dash-free value whose text parses as
`HH:MM` (here `"09:00"`: `tokens[0]` parses, then `tokens[1]` is
indexed out of range), the parser panics and the whole tick aborts, so
a valid workload B later in the iteration order is never evaluated
(first conjunct) even though B alone would be toggled (second
conjunct). Containment does hold when the malformed annotation makes
the parser return an error rather than panic — as with the dash-free
non-time `"junk"`, whose `time.Parse` failure on `tokens[0]` is
returned before `tokens[1]` is indexed (third conjunct: A is skipped,
B is still scaled down). -/
theorem c3_tick_aborts :
    loopIteration (hm 12 0)
      [.found "default/a" ⟨3, some [(ENABLED_ANN, "true"), (SCHEDULE_ANN, "09:00")]⟩
        (some ⟨3, some []⟩) [],
       .found "default/b" ⟨3, some [(ENABLED_ANN, "true"), (SCHEDULE_ANN, "01:00-23:00")]⟩
        (some ⟨3, some []⟩) []] = .panicked [] ∧
    loopIteration (hm 12 0)
      [.found "default/b" ⟨3, some [(ENABLED_ANN, "true"), (SCHEDULE_ANN, "01:00-23:00")]⟩
        (some ⟨3, some []⟩) []] =
      .completed [.toggleDone (.success true) (some ⟨0, some [(REPLICAS_MEMORY_ANN, "3")]⟩)] ∧
    loopIteration (hm 12 0)
      [.found "default/a" ⟨3, some [(ENABLED_ANN, "true"), (SCHEDULE_ANN, "junk")]⟩
        (some ⟨3, some []⟩) [],
       .found "default/b" ⟨3, some [(ENABLED_ANN, "true"), (SCHEDULE_ANN, "01:00-23:00")]⟩
        (some ⟨3, some []⟩) []] =
      .completed [.skippedParse,
        .toggleDone (.success true) (some ⟨0, some [(REPLICAS_MEMORY_ANN, "3")]⟩)] := by
  decide

/-- C6 (counterexample): the `/scaleDown` handler does not map onto a
single non-retrying toggle call. With an update environment whose first
attempt conflicts and whose second succeeds, the handler reports
success and the workload is scaled down — the first failure was
retried, not surfaced — whereas the actual non-retrying variant
(`AttemptToggleDeployment`) surfaces the conflict on the same first
attempt. -/
theorem c6_retrying_counterexample :
    scaleDownHandler (some ⟨"ns", "app"⟩) (some ⟨3, some []⟩) [.conflict, .ok] =
      (.okReceived, some ⟨0, some [(REPLICAS_MEMORY_ANN, "3")]⟩) ∧
    (AttemptToggleDeployment ⟨3, some []⟩ DISABLED .conflict).1 = .failure .conflict := by
  decide

/-- C6 (amended): each manual operation maps onto a single call of the
conflict-retrying State Toggle Protocol (`ToggleDeployment`, up to 5
attempts) — `scaleDown` with target `DISABLED`, `scaleUp` with target
`ENABLED` — and surfaces its result as a success/failure response with
the toggle's effect on the cluster; so a first-attempt conflict that
resolves on retry is reported as success, and an exhausted conflict
budget is reported as a failure response. -/
theorem c6_handler_amended (body : JsonResourceSpecifier) (cluster : Cluster)
    (upds : List UpdateResult) :
    (scaleDownHandler (some body) cluster upds =
      ((match (ToggleDeployment cluster DISABLED upds).1 with
        | .success _ => HttpResponse.okReceived
        | .failure _ => .internalErr
        | .panicked => .panicCrash),
       (ToggleDeployment cluster DISABLED upds).2)) ∧
    (scaleUpHandler (some body) cluster upds =
      ((match (ToggleDeployment cluster ENABLED upds).1 with
        | .success _ => HttpResponse.okReceived
        | .failure _ => .internalErr
        | .panicked => .panicCrash),
       (ToggleDeployment cluster ENABLED upds).2)) ∧
    (scaleDownHandler (some body) (some ⟨3, some []⟩) [.conflict, .ok]).1 =
      .okReceived ∧
    (scaleUpHandler (some body) (some ⟨0, some [(REPLICAS_MEMORY_ANN, "3")]⟩)
      [.conflict, .conflict, .conflict, .conflict, .conflict]).1 = .internalErr := by
  refine ⟨?_, ?_, rfl, rfl⟩ <;>
  · rcases h : ToggleDeployment cluster _ upds with ⟨r, c⟩
    cases r <;> simp [scaleDownHandler, scaleUpHandler, toggleHandler, h]

/-- C7: the range-membership test is strict at both boundaries. For the
non-wrapping range 09:00–17:00 it is false at 09:00, true at 09:01,
true at 16:59 and false at 17:00; and every degenerate range with
`Start = End` contains no time at all. -/
theorem c7_inRangeNow_boundaries :
    TimeRange.InRangeNow ⟨hm 9 0, hm 17 0⟩ (hm 9 0) = false ∧
    TimeRange.InRangeNow ⟨hm 9 0, hm 17 0⟩ (hm 9 1) = true ∧
    TimeRange.InRangeNow ⟨hm 9 0, hm 17 0⟩ (hm 16 59) = true ∧
    TimeRange.InRangeNow ⟨hm 9 0, hm 17 0⟩ (hm 17 0) = false ∧
    ∀ s now : Nat, TimeRange.InRangeNow ⟨s, s⟩ now = false := by
  refine ⟨by decide, by decide, by decide, by decide, ?_⟩
  intro s now
  simp [TimeRange.InRangeNow]
  omega

/-- C8: whenever the end of a range is chronologically before its
start, the range wraps past midnight: `InRangeNow` holds exactly when
`now` is strictly after the start or strictly before the end. In
particular for 22:00–06:00, 23:00 and 03:00 are in range and 12:00 is
not. -/
theorem c8_wraparound (t : TimeRange) (now : Nat) (h : t.End < t.Start) :
    (t.InRangeNow now = true ↔ (t.Start < now ∨ now < t.End)) ∧
    TimeRange.InRangeNow ⟨hm 22 0, hm 6 0⟩ (hm 23 0) = true ∧
    TimeRange.InRangeNow ⟨hm 22 0, hm 6 0⟩ (hm 3 0) = true ∧
    TimeRange.InRangeNow ⟨hm 22 0, hm 6 0⟩ (hm 12 0) = false := by
  refine ⟨?_, by decide, by decide, by decide⟩
  simp [TimeRange.InRangeNow, h]

theorem c8_wraparound_witness :
    TimeRange.InRangeNow ⟨hm 22 0, hm 6 0⟩ (hm 23 0) = true :=
  (c8_wraparound ⟨hm 22 0, hm 6 0⟩ (hm 23 0) (by decide)).2.1

/-- C10: the memorize-replicas step panics instead of completing when
the fetched deployment has a non-zero replica count and no annotation
map at all (a Go nil map): both the retrying and the non-retrying
toggle variant assign `Annotations[...]` on the nil map and crash, for
both target states. -/
theorem c10_nil_map_panics :
    ToggleDeployment (some ⟨5, none⟩) DISABLED [] = (.panicked, some ⟨5, none⟩) ∧
    ToggleDeployment (some ⟨5, none⟩) ENABLED [] = (.panicked, some ⟨5, none⟩) ∧
    (AttemptToggleDeployment ⟨5, none⟩ DISABLED .ok).1 = .panicked ∧
    (AttemptToggleDeployment ⟨5, none⟩ ENABLED .ok).1 = .panicked := by decide

/-- C9: resuming a workload that sits at 0 replicas and carries no
`scheduler.replicas-memory` annotation leaves the replica count
unchanged, does not crash, and returns success (the code still issues
one `Update` call, with the object unmodified). -/
theorem c9_resume_without_memory (d : Deployment) (h0 : d.replicas = 0)
    (h1 : annGet d.anns REPLICAS_MEMORY_ANN = none) :
    ToggleDeployment (some d) ENABLED [] = (.success true, some d) := by
  simp [ToggleDeployment, retryToggle, toggleAttempt, mutateDeployment,
    ENABLED, DISABLED, h0, h1]

theorem c9_resume_without_memory_witness :
    ToggleDeployment (some ⟨0, none⟩) ENABLED [] = (.success true, some ⟨0, none⟩) :=
  c9_resume_without_memory ⟨0, none⟩ rfl rfl

/-- C4: for every workload at `desiredReplicas = 5` (any annotation
content), a succeeding `toggle(SUSPENDED)` followed by a succeeding
`toggle(RUNNING)` — under any update environments — restores
`desiredReplicas = 5` and leaves no `scheduler.replicas-memory`
annotation on the workload. -/
theorem c4_toggle_round_trip (d : Deployment) (u1 u2 : List UpdateResult)
    (w1 w2 : Bool) (c1 c2 : Cluster)
    (h0 : d.replicas = 5)
    (h1 : ToggleDeployment (some d) DISABLED u1 = (.success w1, c1))
    (h2 : ToggleDeployment c1 ENABLED u2 = (.success w2, c2)) :
    ∃ e : Deployment, c2 = some e ∧ e.replicas = 5 ∧
      annGet e.anns REPLICAS_MEMORY_ANN = none := by
  obtain ⟨rep, anns0⟩ := d
  replace h0 : rep = 5 := h0
  subst h0
  cases anns0 with
  | none =>
    -- a nil annotation map panics the suspend toggle, so it cannot succeed
    have hp : ToggleDeployment (some ⟨5, none⟩) DISABLED u1 =
        (.panicked, some ⟨5, none⟩) := by
      simp [ToggleDeployment, retryToggle, toggleAttempt, mutateDeployment, DISABLED]
    rw [hp] at h1
    simp at h1
  | some m =>
    have hi : itoa 5 = "5" := by decide
    have hmut1 : mutateDeployment ⟨5, some m⟩ DISABLED =
        .write ⟨0, some (annInsert m REPLICAS_MEMORY_ANN "5")⟩ := by
      simp [mutateDeployment, DISABLED, hi]
    rcases retryToggle_success 5 _ _ u1 _ _ h1 with ⟨hnw, -, -⟩ | ⟨d2, hw, -, hc1⟩
    · rw [hmut1] at hnw
      exact absurd hnw (by simp)
    · rw [hmut1] at hw
      injection hw with hd
      subst hd
      subst hc1
      have hatoi : atoi "5" = some 5 := by decide
      have h32 : toInt32 5 = 5 := by decide
      have hmut2 : mutateDeployment ⟨0, some (annInsert m REPLICAS_MEMORY_ANN "5")⟩
          ENABLED =
          .write ⟨5, some (annErase (annInsert m REPLICAS_MEMORY_ANN "5")
            REPLICAS_MEMORY_ANN)⟩ := by
        simp [mutateDeployment, ENABLED, DISABLED, annGet, annFind_insert, hatoi, h32]
      rcases retryToggle_success 5 _ _ u2 _ _ h2 with ⟨hnw, -, -⟩ | ⟨e, hw2, -, hc2⟩
      · rw [hmut2] at hnw
        exact absurd hnw (by simp)
      · rw [hmut2] at hw2
        injection hw2 with hd2
        subst hd2
        exact ⟨_, hc2, rfl, annFind_erase _ _⟩

theorem c4_toggle_round_trip_witness :
    ∃ e : Deployment, (some (⟨5, some []⟩ : Deployment) : Cluster) = some e ∧
      e.replicas = 5 ∧ annGet e.anns REPLICAS_MEMORY_ANN = none :=
  c4_toggle_round_trip ⟨5, some []⟩ [] [] true true
    (some ⟨0, some [(REPLICAS_MEMORY_ANN, "5")]⟩) (some ⟨5, some []⟩)
    rfl (by decide) (by decide)

/-- C5 (counterexample): toggling a workload towards `RUNNING` while
its replica count is already non-zero is not always a success-no-op:
when the workload carries no annotation map at all (Go nil map), the
memorize step panics instead of returning success. -/
theorem c5_running_noop_counterexample :
    ToggleDeployment (some ⟨1, none⟩) ENABLED [] = (.panicked, some ⟨1, none⟩) := by
  decide

/-- C5 (amended): for every workload that carries an annotation map,
the toggle is idempotent: `toggle(SUSPENDED)` twice in a row yields
`desiredReplicas = 0` both times, with a memorized-replica write
exactly when the workload was running (the second call performs no
write at all and changes nothing); and `toggle(RUNNING)` on such a
workload whose replica count is already non-zero is a no-op returning
success without a write. -/
theorem c5_idempotence_amended (d : Deployment) (m : AnnMap) (h : d.anns = some m) :
    (∃ d1 : Deployment,
      ToggleDeployment (some d) DISABLED [] =
        (.success (decide (d.replicas ≠ 0)), some d1) ∧
      d1.replicas = 0 ∧
      ToggleDeployment (some d1) DISABLED [] = (.success false, some d1)) ∧
    (d.replicas ≠ 0 → ToggleDeployment (some d) ENABLED [] = (.success false, some d)) := by
  obtain ⟨rep, anns0⟩ := d
  replace h : anns0 = some m := h
  subst h
  by_cases hrep : rep = 0
  · subst hrep
    refine ⟨⟨⟨0, some m⟩, ?_, rfl, ?_⟩, fun hc => absurd rfl hc⟩ <;>
      simp [ToggleDeployment, retryToggle, toggleAttempt, mutateDeployment, DISABLED]
  · refine ⟨⟨⟨0, some (annInsert m REPLICAS_MEMORY_ANN (itoa rep))⟩, ?_, rfl, ?_⟩, ?_⟩
    · simp [ToggleDeployment, retryToggle, toggleAttempt, mutateDeployment,
        DISABLED, hrep]
    · simp [ToggleDeployment, retryToggle, toggleAttempt, mutateDeployment, DISABLED]
    · intro _
      simp [ToggleDeployment, retryToggle, toggleAttempt, mutateDeployment,
        ENABLED, DISABLED, hrep]

theorem c5_idempotence_amended_witness :
    (∃ d1 : Deployment,
      ToggleDeployment (some ⟨2, some []⟩) DISABLED [] =
        (.success (decide ((⟨2, some []⟩ : Deployment).replicas ≠ 0)), some d1) ∧
      d1.replicas = 0 ∧
      ToggleDeployment (some d1) DISABLED [] = (.success false, some d1)) ∧
    ((⟨2, some []⟩ : Deployment).replicas ≠ 0 →
      ToggleDeployment (some ⟨2, some []⟩) ENABLED [] =
        (.success false, some ⟨2, some []⟩)) :=
  c5_idempotence_amended ⟨2, some []⟩ [] rfl

end Concept02

